import Mathlib

/-!
Verification development for the watertap / proteuslib flowsheet sources.

It gives a shallow embedding of two source files and proves the
specification claims about them:

- `proteuslib/flowsheets/full_treatment_train/example_flowsheets/financials.py`:
  the costing-parameter block builder, the per-unit costing methods and the
  flowsheet-level `get_system_costing` builder.
- `watertap/examples/flowsheets/mvc/components/feed_side.py`: the MVC
  evaporator feed-side unit model (`EvaporatorData`): its mass-balance
  constraint construction, its staged state-block initialization routine
  and its scaling-factor pass.

Numeric values are embedded as rationals; Pyomo variables are records of
current value, bounds and fixed flag; Pyomo constraint expressions are
either a symbolic expression tree (where only structure matters) or a
satisfaction predicate over a valuation (where semantics matter).
-/

/-! ## Pyomo variables and symbolic costing expressions -/

/-- A Pyomo `Var` as the costing methods of financials.py use it: its
current value, lower bound, upper bound, and fixed flag. `domain=Reals`
gives no bounds; `domain=NonNegativeReals` gives lower bound 0. -/
structure PyVar where
  value : Option ℚ
  lb : Option ℚ
  ub : Option ℚ
  fixed : Bool
  deriving DecidableEq, Repr

/-- Symbolic Pyomo expression on the right-hand side of a costing
constraint in financials.py: numeric literals, shared cost parameters
(attributes of `fs.costing_param`), variables of the parent unit block,
variables of the costing block itself, and arithmetic. `rpow` records a
power with rational exponent (the source uses exponent 0.58). Pure unit
conversions such as division by `pyunits.m ** 2` carry no numeric content
and are dropped. -/
inductive CExpr where
  | num : ℚ → CExpr
  | param : String → CExpr
  | unitVar : String → CExpr
  | selfVar : String → CExpr
  | add : CExpr → CExpr → CExpr
  | mul : CExpr → CExpr → CExpr
  | div : CExpr → CExpr → CExpr
  | rpow : CExpr → ℚ → CExpr
  deriving DecidableEq, Repr

/-- An equality `Constraint` declared on a costing block: its component
name and the two sides of the equation. -/
structure CCon where
  name : String
  lhs : CExpr
  rhs : CExpr
  deriving DecidableEq, Repr

/-- A per-unit costing block as built by the costing methods of
financials.py: the `Var`s and equality `Constraint`s declared on it, in
declaration order. -/
structure UnitCostingBlock where
  vars : List (String × PyVar)
  cons : List CCon
  deriving DecidableEq, Repr

/-- Embeds `_make_vars` (financials.py, lines 123-131): every costing
method first declares `capital_cost` (initialize 1e5, domain
NonNegativeReals, hence lower bound 0) and `operating_cost` (initialize
1e5, domain Reals, bounds (0, 1e6)). -/
def _make_vars : List (String × PyVar) :=
  [("capital_cost", { value := some 100000, lb := some 0, ub := none, fixed := false }),
   ("operating_cost", { value := some 100000, lb := some 0, ub := some 1000000, fixed := false })]

/-- `v.fix(x)` applied to the named entry of a variable list: sets the
value to `x` and marks the variable fixed. -/
def fixVarList (vs : List (String × PyVar)) (n : String) (x : ℚ) : List (String × PyVar) :=
  vs.map (fun p => if p.1 = n then (p.1, { p.2 with value := some x, fixed := true }) else p)

/-- `v.setlb(x)` applied to the named entry of a variable list: replaces
the lower bound by `x`. -/
def setlbList (vs : List (String × PyVar)) (n : String) (x : ℚ) : List (String × PyVar) :=
  vs.map (fun p => if p.1 = n then (p.1, { p.2 with lb := some x }) else p)

/-- Embeds `ReverseOsmosis_costing` (financials.py, lines 134-147): the two
`_make_vars` variables plus `eq_capital_cost` (capital_cost ==
RO_mem_cost * area) and `eq_operating_cost` (operating_cost ==
factor_membrane_replacement * RO_mem_cost * area). -/
def ReverseOsmosis_costing : UnitCostingBlock :=
  { vars := _make_vars,
    cons :=
      [{ name := "eq_capital_cost", lhs := CExpr.selfVar "capital_cost",
         rhs := CExpr.mul (CExpr.param "RO_mem_cost") (CExpr.unitVar "area") },
       { name := "eq_operating_cost", lhs := CExpr.selfVar "operating_cost",
         rhs := CExpr.mul (CExpr.mul (CExpr.param "factor_membrane_replacement")
                  (CExpr.param "RO_mem_cost")) (CExpr.unitVar "area") }] }

/-- Embeds `Nanofiltration_costing` (financials.py, lines 150-165): same
shape as the reverse-osmosis method with the NF membrane cost parameter. -/
def Nanofiltration_costing : UnitCostingBlock :=
  { vars := _make_vars,
    cons :=
      [{ name := "eq_capital_cost", lhs := CExpr.selfVar "capital_cost",
         rhs := CExpr.mul (CExpr.param "NF_mem_cost") (CExpr.unitVar "area") },
       { name := "eq_operating_cost", lhs := CExpr.selfVar "operating_cost",
         rhs := CExpr.mul (CExpr.mul (CExpr.param "factor_membrane_replacement")
                  (CExpr.param "NF_mem_cost")) (CExpr.unitVar "area") }] }

/-- Embeds `Chlorination_costing` (financials.py, lines 168-183): it calls
`_make_vars` and declares no constraints (both constraint statements in
the source are commented out). -/
def Chlorination_costing : UnitCostingBlock :=
  { vars := _make_vars, cons := [] }

/-- Embeds `rstoic_costing` (financials.py, lines 187-220): it calls
`_make_vars` and declares no constraints (both constraint statements in
the source are commented out). -/
def rstoic_costing : UnitCostingBlock :=
  { vars := _make_vars, cons := [] }

/-- Embeds `Separator_costing` (financials.py, line 222): the body is
`pass`, so nothing is declared. -/
def Separator_costing : UnitCostingBlock :=
  { vars := [], cons := [] }

/-- Embeds `Mixer_costing` (financials.py, line 225): the body is `pass`,
so nothing is declared. -/
def Mixer_costing : UnitCostingBlock :=
  { vars := [], cons := [] }

/-- Embeds `PressureExchanger_costing` (financials.py, lines 228-240): the
two `_make_vars` variables, one constraint `eq_capital_cost`
(capital_cost == pxr_cost * low-pressure-side inlet flow_vol * 3600), and
`operating_cost.fix(0)`. -/
def PressureExchanger_costing : UnitCostingBlock :=
  { vars := fixVarList _make_vars "operating_cost" 0,
    cons :=
      [{ name := "eq_capital_cost", lhs := CExpr.selfVar "capital_cost",
         rhs := CExpr.mul (CExpr.mul (CExpr.param "pxr_cost")
                  (CExpr.unitVar "low_pressure_side.properties_in[0].flow_vol"))
                  (CExpr.num 3600) }] }

/-- Embeds `pressure_changer_costing` (financials.py, lines 243-277).
Every branch first calls `_make_vars`, then declares `purchase_cost`
(no initial value, no bounds) and the constraint `cp_cost_eq`
(purchase_cost == 0). The branch on `pump_type` then adds:
for "High pressure", `eq_capital_cost` (capital_cost == hp_pump_cost *
work_mechanical[0]) and `eq_operating_cost`; for "Pressure exchanger",
`operating_cost.setlb(-1e6)`, `eq_capital_cost` (erd_cost[A] *
(mass flow / density * 3600) ** 0.58) and `eq_operating_cost`; for any
other value (the default is "centrifugal"), nothing further. -/
def pressure_changer_costing (pump_type : String) : UnitCostingBlock :=
  let vars0 := _make_vars ++
    [("purchase_cost", { value := none, lb := none, ub := none, fixed := false })]
  let cons0 := [{ name := "cp_cost_eq", lhs := CExpr.selfVar "purchase_cost",
                  rhs := CExpr.num 0 : CCon }]
  let op_cost_rhs := CExpr.div (CExpr.div (CExpr.mul (CExpr.mul
    (CExpr.mul (CExpr.unitVar "work_mechanical[0]") (CExpr.num 31536000))
    (CExpr.param "load_factor")) (CExpr.param "electricity_cost"))
    (CExpr.num 3600)) (CExpr.num 1000)
  if pump_type = "High pressure" then
    { vars := vars0,
      cons := cons0 ++
        [{ name := "eq_capital_cost", lhs := CExpr.selfVar "capital_cost",
           rhs := CExpr.mul (CExpr.param "hp_pump_cost") (CExpr.unitVar "work_mechanical[0]") },
         { name := "eq_operating_cost", lhs := CExpr.selfVar "operating_cost",
           rhs := op_cost_rhs }] }
  else if pump_type = "Pressure exchanger" then
    { vars := setlbList vars0 "operating_cost" (-1000000),
      cons := cons0 ++
        [{ name := "eq_capital_cost", lhs := CExpr.selfVar "capital_cost",
           rhs := CExpr.mul (CExpr.param "erd_cost[A]")
             (CExpr.rpow (CExpr.mul (CExpr.div (CExpr.unitVar "sum_flow_mass_comp_in")
               (CExpr.unitVar "dens_mass_in")) (CExpr.num 3600)) (29 / 50)) },
         { name := "eq_operating_cost", lhs := CExpr.selfVar "operating_cost",
           rhs := op_cost_rhs }] }
  else
    { vars := vars0, cons := cons0 }

/-- Lower bound of the named variable of a costing block (`none` when no
variable of that name exists). -/
def lbOf (b : UnitCostingBlock) (n : String) : Option (Option ℚ) :=
  (b.vars.find? (fun p => p.1 = n)).map (fun p => p.2.lb)

/-! ## The costing-parameter block (`add_costing_param_block`) -/

/-- The ConfigurationError message raised by `add_costing_param_block`
(financials.py, lines 67-70): it names the offending block and
parameter. -/
def paramErrMsg (bname pname : String) : String :=
  bname ++ " parameter " ++ pname ++ " was not assigned a value. Please check your configuration arguments."

/-- The eleven cost-parameter variables declared by
`add_costing_param_block` (financials.py, lines 28-61) with their
initialize values, in declaration order. -/
def costing_param_vars : List (String × Option ℚ) :=
  [("load_factor", some (9 / 10)),
   ("factor_total_investment", some 2),
   ("factor_MLC", some (3 / 100)),
   ("factor_capital_annualization", some (1 / 10)),
   ("factor_membrane_replacement", some (1 / 5)),
   ("electricity_cost", some (7 / 100)),
   ("RO_mem_cost", some 30),
   ("NF_mem_cost", some 15),
   ("hp_pump_cost", some (53 * 3600 / 100000)),
   ("pxr_cost", some 535),
   ("chemical_lime_cost", some 1)]

/-- Embeds the check-and-fix loop of `add_costing_param_block`
(financials.py, lines 64-71): walk the variables of the parameter block in
order; raise ConfigurationError (naming the block and the parameter) at
the first variable whose value is unset, otherwise fix every variable.
The result lists each parameter with its value and fixed flag. -/
def fixParams (bname : String) : List (String × Option ℚ) → Except String (List (String × ℚ × Bool))
  | [] => Except.ok []
  | (n, none) :: _ => Except.error (paramErrMsg bname n)
  | (n, some x) :: rest =>
    match fixParams bname rest with
    | Except.error e => Except.error e
    | Except.ok r => Except.ok ((n, x, true) :: r)

/-- Embeds `add_costing_param_block` (financials.py, lines 24-71): declare
the eleven parameter variables with their initialize values and run the
check-and-fix loop over them. -/
def add_costing_param_block : Except String (List (String × ℚ × Bool)) :=
  fixParams "fs.costing_param" costing_param_vars

/-! ## Component-name semantics of `get_system_costing` -/

/-- A Pyomo `Block` viewed as its list of attached component names in
declaration order. The components `get_system_costing` assigns under
these names are always built from the same fixed definitions
(financials.py, lines 79-120), so the name list in declaration order
determines the block's contents. -/
structure Blk where
  comps : List String
  deriving DecidableEq, Repr

/-- The warning Pyomo logs when an attribute assignment replaces an
existing same-named component on a block. -/
def implicitReplaceWarn (n : String) : String :=
  "Implicitly replacing the Component attribute " ++ n ++
    " with a new Component. This is usually indicative of a modelling error."

/-- Pyomo component attachment by attribute assignment (`b.name = Var(...)`
or `b.name = Constraint(...)`, the only form financials.py uses): when a
component of that name already exists on the block, Pyomo logs an
implicit-replacement warning, deletes the old component and attaches the
new one, which moves the name to the end of the declaration order;
otherwise the component is appended. Returns the updated block together
with the warnings emitted. -/
def setattrComponent (b : Blk) (n : String) : Blk × List String :=
  if n ∈ b.comps then
    ({ comps := b.comps.erase n ++ [n] }, [implicitReplaceWarn n])
  else
    ({ comps := b.comps ++ [n] }, [])

/-- Assign a list of components in order by attribute assignment,
accumulating the warnings. -/
def setattrAll (b : Blk) : List String → Blk × List String
  | [] => (b, [])
  | n :: rest =>
    let r := setattrComponent b n
    let rr := setattrAll r.1 rest
    (rr.1, r.2 ++ rr.2)

/-- The flowsheet as `get_system_costing` touches it: the optional
`costing` sub-block attribute. -/
structure FlowsheetBlk where
  costing : Option Blk
  deriving DecidableEq, Repr

/-- The component names of the flowsheet costing block ([] when absent). -/
def costingComps (fs : FlowsheetBlk) : List String :=
  match fs.costing with
  | some b => b.comps
  | none => []

/-- The ten components `get_system_costing` declares on the costing block
(financials.py, lines 79-120), in declaration order. -/
def sysCostingNames : List String :=
  ["capital_cost_total", "investment_cost_total", "operating_cost_MLC",
   "operating_cost_total", "LCOW",
   "eq_capital_cost_total", "eq_investment_cost_total", "eq_operating_cost_MLC",
   "eq_operating_cost_total", "eq_LCOW"]

/-- The block `get_system_costing` works on (financials.py, lines 75-77):
the existing `costing` block when the attribute is present, a fresh empty
block otherwise. -/
def baseCostingBlk (fs : FlowsheetBlk) : Blk :=
  match fs.costing with
  | some b => b
  | none => { comps := [] }

/-- Embeds the component-attachment behaviour of `get_system_costing`
(financials.py, lines 74-120): create `self.costing` only if the attribute
is absent (`if not hasattr(self, 'costing')`), then assign the five
variables and five constraints on that block by attribute assignment.
Returns the updated flowsheet and the warnings the assignments emit. -/
def get_system_costing (fs : FlowsheetBlk) : FlowsheetBlk × List String :=
  let r := setattrAll (baseCostingBlk fs) sysCostingNames
  ({ fs with costing := some r.1 }, r.2)

/-! ## Equation semantics of the system-level costing constraints -/

/-- A valuation of everything the five constraints of
`get_system_costing` mention: the capital and operating costs of the unit
costing blocks found by the `component_objects` traversal (in traversal
order), the shared cost parameters it reads, the flowsheet's annual water
production, and the five system-level cost variables. -/
structure SysCostingEnv where
  unit_capital_costs : List ℚ
  unit_operating_costs : List ℚ
  factor_total_investment : ℚ
  factor_MLC : ℚ
  factor_capital_annualization : ℚ
  annual_water_production : ℚ
  capital_cost_total : ℚ
  investment_cost_total : ℚ
  operating_cost_MLC : ℚ
  operating_cost_total : ℚ
  LCOW : ℚ

/-- Constraint `eq_capital_cost_total` (financials.py, lines 108-109):
the capital total equals the sum of the unit capital costs. -/
def eq_capital_cost_total_con (e : SysCostingEnv) : Prop :=
  e.capital_cost_total = e.unit_capital_costs.sum

/-- Constraint `eq_investment_cost_total` (financials.py, lines 110-112). -/
def eq_investment_cost_total_con (e : SysCostingEnv) : Prop :=
  e.investment_cost_total = e.capital_cost_total * e.factor_total_investment

/-- Constraint `eq_operating_cost_MLC` (financials.py, lines 113-115). -/
def eq_operating_cost_MLC_con (e : SysCostingEnv) : Prop :=
  e.operating_cost_MLC = e.investment_cost_total * e.factor_MLC

/-- Constraint `eq_operating_cost_total` (financials.py, lines 116-117):
the sum runs over the unit operating costs with `operating_cost_MLC`
appended (line 106). -/
def eq_operating_cost_total_con (e : SysCostingEnv) : Prop :=
  e.operating_cost_total = (e.unit_operating_costs ++ [e.operating_cost_MLC]).sum

/-- Constraint `eq_LCOW` (financials.py, lines 118-120). -/
def eq_LCOW_con (e : SysCostingEnv) : Prop :=
  e.LCOW = (e.investment_cost_total * e.factor_capital_annualization
    + e.operating_cost_total) / e.annual_water_production

/-- The conjunction of the five constraints `get_system_costing` declares. -/
def system_costing_constraints (e : SysCostingEnv) : Prop :=
  eq_capital_cost_total_con e ∧ eq_investment_cost_total_con e ∧
  eq_operating_cost_MLC_con e ∧ eq_operating_cost_total_con e ∧ eq_LCOW_con e

/-! ## Scaling-factor pass of the evaporator (`calculate_scaling_factors`) -/

/-- The scaling factors `EvaporatorData.calculate_scaling_factors`
(feed_side.py, lines 340-362) reads or writes: the `heat_transfer`
variable, the vapor-outlet enthalpy-flow variable
`properties_vapor[0].enth_flow_phase[Vap]`, and the energy-balance
constraint `eq_energy_balance`. `none` means no scaling factor is set. -/
structure ScalingState where
  heat_transfer_sf : Option ℚ
  vapor_enth_flow_vap_sf : Option ℚ
  eq_energy_balance_sf : Option ℚ
  deriving DecidableEq, Repr

/-- The unit model's own scaling logic (feed_side.py, lines 343-345): if
`heat_transfer` has no scaling factor, give it the scaling factor of the
vapor enthalpy-flow variable. The constraint-scaling statements
(lines 347-362) are commented out in the source, so nothing else is
touched. -/
def own_scaling_pass (s1 : ScalingState) : ScalingState :=
  match s1.heat_transfer_sf with
  | none => { s1 with heat_transfer_sf := s1.vapor_enth_flow_vap_sf }
  | some _ => s1

/-- Embeds `EvaporatorData.calculate_scaling_factors` (feed_side.py,
lines 340-345): first `super().calculate_scaling_factors()` (the
superclass/default pass, abstract here), then the unit model's own pass
on the resulting state. -/
def EvaporatorData.calculate_scaling_factors
    (superPass : ScalingState → ScalingState) (s : ScalingState) : ScalingState :=
  own_scaling_pass (superPass s)

/-! ## Staged initialization of the evaporator (`EvaporatorData.initialize`) -/

/-- Solver termination status returned by the solver adapter. -/
inductive TerminationCondition where
  | optimal
  | infeasible
  | maxIterations
  | unbounded
  | other
  deriving DecidableEq, Repr

/-- Rendering of a termination status in the initialization log messages
(abstracts the external helper `idaeslog.condition`). -/
def TerminationCondition.describe : TerminationCondition → String
  | TerminationCondition.optimal => "optimal"
  | TerminationCondition.infeasible => "infeasible"
  | TerminationCondition.maxIterations => "maxIterations"
  | TerminationCondition.unbounded => "unbounded"
  | TerminationCondition.other => "other"

/-- The port-member values of a state block at one time point, in the
shape `define_port_members` exposes for this property package:
`flow_mass_phase_comp` indexed by (phase, component), plus scalar
`temperature` and `pressure`. A value is `none` when the underlying
variable has no current value. The same shape serves as a `state_args`
dictionary passed to a state-block initialization. -/
structure PortVals where
  flow_mass_phase_comp : List ((String × String) × Option ℚ)
  temperature : Option ℚ
  pressure : Option ℚ
  deriving DecidableEq, Repr

/-- The state_args in effect after the `if state_args is None` branch of
`EvaporatorData.initialize` (feed_side.py, lines 287-298): the given
arguments, or else a copy of the current numeric values of the feed state
block's port members. -/
def resolved_state_args (feedPort : PortVals) (state_args : Option PortVals) : PortVals :=
  match state_args with
  | some a => a
  | none => feedPort

/-- The vapor-block state_args built at feed_side.py, lines 307-312:
pressure and temperature from `state_args`, liquid-phase H2O flow pinned
at the vapor block's lower bound, vapor-phase H2O flow set from the
state_args liquid-phase H2O value. Looking the (Liq, H2O) key up in
`state_args` is a KeyError (here `none`) when the key is absent. -/
def vapor_state_args (args : PortVals) (vaporLiqH2Olb : Option ℚ) : Option PortVals :=
  (args.flow_mass_phase_comp.lookup ("Liq", "H2O")).map (fun w =>
    { flow_mass_phase_comp := [(("Liq", "H2O"), vaporLiqH2Olb), (("Vap", "H2O"), w)],
      temperature := args.temperature,
      pressure := args.pressure })

/-- One observable step of the initialization routine: a state-block
initialization call (block name, hold_state argument, state_args passed),
the whole-unit solve with its termination status, a `release_state` call
(block name, flags passed), or a log message. -/
inductive InitEvent where
  | initBlock (blockName : String) (hold_state : Bool) (args : Option PortVals)
  | solveUnit (res : TerminationCondition)
  | releaseState (blockName : String) (flags : List String)
  | logMsg (msg : String)
  deriving DecidableEq, Repr

/-- Embeds `EvaporatorData.initialize` (feed_side.py, lines 247-333) as
the trace of its observable steps. `feedPort` is the snapshot of the feed
block's port-member values, `flags` the flag set the feed-block
initialization with `hold_state=True` returns, `vaporLiqH2Olb` the lower
bound of the vapor block's liquid-phase H2O flow variable, `res` the
termination status returned by the whole-unit solve, and `state_args` the
optional caller-supplied state arguments. The routine raises no exception
of its own: the only failure (`none`) is the KeyError when the (Liq, H2O)
flow key is missing from the state arguments. -/
def EvaporatorData.init_unit (feedPort : PortVals) (flags : List String)
    (vaporLiqH2Olb : Option ℚ) (res : TerminationCondition)
    (state_args : Option PortVals) : Option (List InitEvent) :=
  let args := resolved_state_args feedPort state_args
  match vapor_state_args args vaporLiqH2Olb with
  | none => none
  | some vargs =>
    some [InitEvent.initBlock "properties_feed" true state_args,
          InitEvent.logMsg "Initialization Step 1 Complete.",
          InitEvent.initBlock "properties_brine" false (some args),
          InitEvent.initBlock "properties_vapor" false (some vargs),
          InitEvent.logMsg "Initialization Step 2 Complete.",
          InitEvent.solveUnit res,
          InitEvent.logMsg ("Initialization Step 3 " ++ res.describe ++ "."),
          InitEvent.releaseState "properties_feed" flags,
          InitEvent.logMsg ("Initialization Complete: " ++ res.describe)]

/-! ## Mass balance of the evaporator (`eq_mass_balance`) -/

/-- The vapor state block's liquid-phase H2O flow variable as the
mass-balance rule touches it: current value, lower bound, fixed flag. -/
structure VaporFlowVar where
  value : Option ℚ
  lb : ℚ
  fixed : Bool
  deriving DecidableEq, Repr

/-- The relation returned by one evaluation of the mass-balance rule at
time `t` and component `j`: the H2O balance (feed Liq H2O = brine Liq H2O
+ vapor Vap H2O) or the solute balance (feed Liq j = brine Liq j). -/
inductive MassBalRel where
  | h2oBal (t : ℕ)
  | soluteBal (t : ℕ) (j : String)
  deriving DecidableEq, Repr

/-- Embeds the rule body of `eq_mass_balance` (feed_side.py,
lines 199-207): it first reads the lower bound of the vapor block's
liquid-phase H2O flow variable and fixes that variable at it (a side
effect of constraint construction), then returns the H2O balance for
`j = H2O` and the solute balance otherwise. -/
def eq_mass_balance_rule (t : ℕ) (j : String) (v : VaporFlowVar) :
    VaporFlowVar × MassBalRel :=
  let v2 : VaporFlowVar := { value := some v.lb, lb := v.lb, fixed := true }
  if j = "H2O" then (v2, MassBalRel.h2oBal t)
  else (v2, MassBalRel.soluteBal t j)

/-- Embeds the construction of the indexed constraint `eq_mass_balance`
at one time point (feed_side.py, line 198): Pyomo evaluates the rule once
per component of the feed package's component list, threading the side
effect on the vapor flow variable and collecting the returned relations. -/
def eq_mass_balance_build (t : ℕ) (comps : List String) (v : VaporFlowVar) :
    VaporFlowVar × List MassBalRel :=
  match comps with
  | [] => (v, [])
  | j :: rest =>
    let r := eq_mass_balance_rule t j v
    let rr := eq_mass_balance_build t rest r.1
    (rr.1, r.2 :: rr.2)

/-- A valuation of the flow variables the mass-balance relations mention:
feed and brine liquid-phase flows per time and component, and the vapor
block's vapor-phase H2O flow per time. -/
structure EvapFlowsVal where
  feed_liq : ℕ → String → ℚ
  brine_liq : ℕ → String → ℚ
  vapor_vap_h2o : ℕ → ℚ

/-- Satisfaction of a mass-balance relation under a valuation. -/
def MassBalRel.holds (f : EvapFlowsVal) : MassBalRel → Prop
  | MassBalRel.h2oBal t => f.feed_liq t "H2O" = f.brine_liq t "H2O" + f.vapor_vap_h2o t
  | MassBalRel.soluteBal t j => f.feed_liq t j = f.brine_liq t j

instance (f : EvapFlowsVal) (r : MassBalRel) : Decidable (r.holds f) :=
  match r with
  | MassBalRel.h2oBal t =>
    inferInstanceAs (Decidable (f.feed_liq t "H2O" = f.brine_liq t "H2O" + f.vapor_vap_h2o t))
  | MassBalRel.soluteBal t j =>
    inferInstanceAs (Decidable (f.feed_liq t j = f.brine_liq t j))

/-- The outlet flow of component `j` through the vapor port: the vapor
outlet carries only vapor-phase H2O (its liquid-phase H2O flow is fixed
at the lower bound 0 of the package and no other component exists in the
vapor package), so a component other than H2O leaves only through the
brine port. -/
def vaporOutFlow (f : EvapFlowsVal) (t : ℕ) (j : String) : ℚ :=
  if j = "H2O" then f.vapor_vap_h2o t else 0

/-- A concrete valuation satisfying the evaporator mass-balance
constraints, used to witness the conservation theorem. -/
def evapFlowsEx : EvapFlowsVal :=
  { feed_liq := fun _ j => if j = "H2O" then 10 else 1,
    brine_liq := fun _ j => if j = "H2O" then 4 else 1,
    vapor_vap_h2o := fun _ => 6 }

/-! # Theorems -/

/-! ## Helper lemmas for the costing-parameter loop -/

theorem fixParams_error_iff (bname : String) (vs : List (String × Option ℚ)) :
    (∃ e, fixParams bname vs = Except.error e) ↔ ∃ p ∈ vs, p.2 = none := by
  induction vs with
  | nil => simp [fixParams]
  | cons hd tl ih =>
    obtain ⟨n, val⟩ := hd
    cases val with
    | none =>
      constructor
      · intro _
        exact ⟨(n, none), by simp, rfl⟩
      · intro _
        exact ⟨paramErrMsg bname n, by simp [fixParams]⟩
    | some x =>
      cases htl : fixParams bname tl with
      | error e =>
        have hcons : fixParams bname ((n, some x) :: tl) = Except.error e := by
          simp [fixParams, htl]
        constructor
        · intro _
          obtain ⟨p, hp, hp2⟩ := ih.mp ⟨e, htl⟩
          exact ⟨p, List.mem_cons_of_mem _ hp, hp2⟩
        · intro _
          exact ⟨e, hcons⟩
      | ok r =>
        have hcons : fixParams bname ((n, some x) :: tl) = Except.ok ((n, x, true) :: r) := by
          simp [fixParams, htl]
        constructor
        · intro ⟨e2, he2⟩
          rw [hcons] at he2
          exact absurd he2 (by simp)
        · intro ⟨p, hp, hp2⟩
          rcases List.mem_cons.mp hp with h1 | h1
          · rw [h1] at hp2
            exact absurd hp2 (by simp)
          · obtain ⟨e2, he2⟩ := ih.mpr ⟨p, h1, hp2⟩
            rw [htl] at he2
            exact absurd he2 (by simp)

theorem fixParams_ok_all_fixed (bname : String) (vs : List (String × Option ℚ))
    (r : List (String × ℚ × Bool)) (h : fixParams bname vs = Except.ok r) :
    ∀ x ∈ r, x.2.2 = true := by
  induction vs generalizing r with
  | nil =>
    simp only [fixParams, Except.ok.injEq] at h
    subst h
    simp
  | cons hd tl ih =>
    obtain ⟨n, val⟩ := hd
    cases val with
    | none => simp [fixParams] at h
    | some x =>
      cases htl : fixParams bname tl with
      | error e => simp [fixParams, htl] at h
      | ok r2 =>
        simp only [fixParams, htl, Except.ok.injEq] at h
        subst h
        intro y hy
        rcases List.mem_cons.mp hy with h1 | h1
        · rw [h1]
        · exact ih r2 htl y h1

theorem fixParams_first_unset (bname : String) (vs1 : List (String × Option ℚ))
    (n : String) (vs2 : List (String × Option ℚ)) (h : ∀ p ∈ vs1, p.2 ≠ none) :
    fixParams bname (vs1 ++ (n, none) :: vs2) = Except.error (paramErrMsg bname n) := by
  induction vs1 with
  | nil => simp [fixParams]
  | cons hd tl ih =>
    obtain ⟨m, val⟩ := hd
    cases val with
    | none => exact absurd rfl (h (m, none) (List.mem_cons_self _ _))
    | some x =>
      have htl := ih (fun p hp => h p (List.mem_cons_of_mem _ hp))
      simp [fixParams, htl]

/-! ## Claim C8 -/

/-- Claim C8: the check-and-fix loop of `add_costing_param_block` raises a
ConfigurationError if and only if some cost-parameter variable has no
value; the error message names the offending block and the first unset
parameter; on success every parameter variable is fixed; and
`add_costing_param_block` itself (all eleven parameters initialized)
succeeds with every parameter fixed. -/
theorem C8_costing_param_fixed_iff (bname : String) (vs : List (String × Option ℚ)) :
    ((∃ e, fixParams bname vs = Except.error e) ↔ ∃ p ∈ vs, p.2 = none) ∧
    (∀ vs1 n vs2, vs = vs1 ++ (n, (none : Option ℚ)) :: vs2 →
      (∀ p ∈ vs1, p.2 ≠ none) →
      fixParams bname vs = Except.error (paramErrMsg bname n)) ∧
    (∀ r, fixParams bname vs = Except.ok r → ∀ x ∈ r, x.2.2 = true) ∧
    (∃ r, add_costing_param_block = Except.ok r ∧ ∀ x ∈ r, x.2.2 = true) := by
  refine ⟨fixParams_error_iff bname vs, ?_, ?_, ?_⟩
  · intro vs1 n vs2 hv hne
    subst hv
    exact fixParams_first_unset bname vs1 n vs2 hne
  · intro r h
    exact fixParams_ok_all_fixed bname vs r h
  · exact ⟨_, rfl, by decide⟩

/-- Witness for C8: at a concrete parameter list whose second entry is
unset, the loop raises the error naming the block and that parameter. -/
theorem C8_witness :
    fixParams "fs.costing_param" [("a", some (1 : ℚ)), ("b", (none : Option ℚ))] =
      Except.error (paramErrMsg "fs.costing_param" "b") :=
  (C8_costing_param_fixed_iff "fs.costing_param"
      [("a", some (1 : ℚ)), ("b", (none : Option ℚ))]).2.1
    [("a", some (1 : ℚ))] "b" [] rfl (by decide)

/-! ## Claim C9 -/

/-- Counterexample to claim C9: the costing block built by
`pressure_changer_costing` with pump_type "Pressure exchanger" has its
operating_cost lower bound relaxed to -1e6, so the bounds do not exclude
negative values. -/
theorem C9_counterexample_negative_lb :
    lbOf (pressure_changer_costing "Pressure exchanger") "operating_cost" =
      some (some (-1000000)) := by decide

/-- Claim C9 (amended): capital_cost is created with lower bound 0 by
every per-unit costing method that declares it, and operating_cost with
lower bound 0, except that the "Pressure exchanger" branch of the pump
costing method subsequently relaxes operating_cost's lower bound to
-1e6, allowing a negative operating cost (energy recovery). -/
theorem C9_amended_bounds :
    (∀ pt, lbOf (pressure_changer_costing pt) "capital_cost" = some (some 0)) ∧
    (∀ pt, pt ≠ "Pressure exchanger" →
      lbOf (pressure_changer_costing pt) "operating_cost" = some (some 0)) ∧
    lbOf (pressure_changer_costing "Pressure exchanger") "operating_cost" =
      some (some (-1000000)) ∧
    (lbOf ReverseOsmosis_costing "capital_cost" = some (some 0) ∧
     lbOf ReverseOsmosis_costing "operating_cost" = some (some 0) ∧
     lbOf Nanofiltration_costing "capital_cost" = some (some 0) ∧
     lbOf Nanofiltration_costing "operating_cost" = some (some 0) ∧
     lbOf Chlorination_costing "capital_cost" = some (some 0) ∧
     lbOf Chlorination_costing "operating_cost" = some (some 0) ∧
     lbOf rstoic_costing "capital_cost" = some (some 0) ∧
     lbOf rstoic_costing "operating_cost" = some (some 0) ∧
     lbOf PressureExchanger_costing "capital_cost" = some (some 0) ∧
     lbOf PressureExchanger_costing "operating_cost" = some (some 0)) := by
  refine ⟨?_, ?_, by decide, by decide⟩
  · intro pt
    by_cases h1 : pt = "High pressure"
    · subst h1; decide
    · by_cases h2 : pt = "Pressure exchanger"
      · subst h2; decide
      · simp only [pressure_changer_costing, if_neg h1, if_neg h2]
        decide
  · intro pt h2
    by_cases h1 : pt = "High pressure"
    · subst h1; decide
    · simp only [pressure_changer_costing, if_neg h1, if_neg h2]
      decide

/-- Witness for C9 at a concrete pump type: the default centrifugal pump
costing block keeps the non-negative operating-cost lower bound. -/
theorem C9_witness :
    lbOf (pressure_changer_costing "centrifugal") "operating_cost" = some (some 0) :=
  C9_amended_bounds.2.1 "centrifugal" (by decide)

/-! ## Claim C3 -/

/-- Counterexample to claim C3: the pump costing method declares three
variables (capital_cost, operating_cost and purchase_cost) for every
pump_type, not exactly two, and for the "High pressure" branch it
declares three equality constraints, not one or two. -/
theorem C3_counterexample_pump_vars :
    (pressure_changer_costing "centrifugal").vars.length = 3 ∧
    (pressure_changer_costing "High pressure").cons.length = 3 := by decide

/-- Claim C3 (amended): `ReverseOsmosis_costing` and
`PressureExchanger_costing` declare exactly the two cost variables and
respectively two and one equality constraints (the pressure exchanger
fixes operating_cost to 0 instead of constraining it); every pump costing
variant additionally declares a `purchase_cost` variable (three variables
in all) and a `purchase_cost == 0` constraint, to which the
"High pressure" and "Pressure exchanger" branches add their capital- and
operating-cost constraints (three constraints), while any other pump_type
(default "centrifugal") adds none. -/
theorem C3_amended_counts :
    (ReverseOsmosis_costing.vars.map Prod.fst = ["capital_cost", "operating_cost"] ∧
     ReverseOsmosis_costing.cons.map CCon.name = ["eq_capital_cost", "eq_operating_cost"] ∧
     PressureExchanger_costing.vars.map Prod.fst = ["capital_cost", "operating_cost"] ∧
     PressureExchanger_costing.cons.map CCon.name = ["eq_capital_cost"] ∧
     PressureExchanger_costing.vars.lookup "operating_cost" =
       some { value := some 0, lb := some 0, ub := some 1000000, fixed := true }) ∧
    (∀ pt, (pressure_changer_costing pt).vars.map Prod.fst =
      ["capital_cost", "operating_cost", "purchase_cost"]) ∧
    (∀ pt, pt ≠ "High pressure" → pt ≠ "Pressure exchanger" →
      (pressure_changer_costing pt).cons.map CCon.name = ["cp_cost_eq"]) ∧
    ((pressure_changer_costing "High pressure").cons.map CCon.name =
      ["cp_cost_eq", "eq_capital_cost", "eq_operating_cost"] ∧
     (pressure_changer_costing "Pressure exchanger").cons.map CCon.name =
      ["cp_cost_eq", "eq_capital_cost", "eq_operating_cost"]) := by
  refine ⟨by decide, ?_, ?_, by decide⟩
  · intro pt
    by_cases h1 : pt = "High pressure"
    · subst h1; decide
    · by_cases h2 : pt = "Pressure exchanger"
      · subst h2; decide
      · simp only [pressure_changer_costing, if_neg h1, if_neg h2]
        decide
  · intro pt h1 h2
    simp only [pressure_changer_costing, if_neg h1, if_neg h2]
    decide

/-- Witness for C3 at a concrete pump type: the centrifugal branch
declares only the purchase-cost constraint. -/
theorem C3_witness :
    (pressure_changer_costing "centrifugal").cons.map CCon.name = ["cp_cost_eq"] :=
  C3_amended_counts.2.2.1 "centrifugal" (by decide) (by decide)

/-! ## Claim C2 -/

theorem baseCostingBlk_comps (fs : FlowsheetBlk) :
    (baseCostingBlk fs).comps = costingComps fs := by
  obtain ⟨c⟩ := fs
  cases c <;> rfl

theorem setattrAll_fresh (ns : List String) (b : Blk)
    (hfresh : ∀ n ∈ ns, n ∉ b.comps) (hnd : ns.Nodup) :
    setattrAll b ns = ({ comps := b.comps ++ ns }, []) := by
  induction ns generalizing b with
  | nil => simp [setattrAll]
  | cons n rest ih =>
    have hn : n ∉ b.comps := hfresh n (List.mem_cons_self _ _)
    have hrest : ∀ m ∈ rest, m ∉ b.comps ++ [n] := by
      intro m hm
      simp only [List.mem_append, List.mem_singleton]
      rintro (hc | hc)
      · exact hfresh m (List.mem_cons_of_mem _ hm) hc
      · exact (List.nodup_cons.mp hnd).1 (hc ▸ hm)
    have h2 := ih { comps := b.comps ++ [n] } hrest (List.nodup_cons.mp hnd).2
    simp [setattrAll, setattrComponent, hn, h2]

theorem setattrAll_replay (ns : List String) (pre : List String) :
    ∀ done : List String, ns.Nodup → (∀ n ∈ ns, n ∉ done) → (∀ n ∈ ns, n ∉ pre) →
    setattrAll { comps := pre ++ ns ++ done } ns =
      ({ comps := pre ++ done ++ ns }, ns.map implicitReplaceWarn) := by
  induction ns with
  | nil =>
    intro done _ _ _
    simp [setattrAll]
  | cons n rest ih =>
    intro done hnd hdone hpre
    have hnpre : n ∉ pre := hpre n (List.mem_cons_self _ _)
    have hmem : n ∈ pre ++ (n :: rest) ++ done := by simp
    have herase : (pre ++ (n :: rest) ++ done).erase n = pre ++ rest ++ done := by
      rw [List.append_assoc, List.erase_append_right _ hnpre, List.cons_append,
        List.erase_cons_head, ← List.append_assoc]
    have hstep : setattrComponent { comps := pre ++ (n :: rest) ++ done } n =
        ({ comps := pre ++ rest ++ (done ++ [n]) }, [implicitReplaceWarn n]) := by
      simp only [setattrComponent]
      rw [if_pos hmem, herase]
      simp [List.append_assoc]
    have h2 := ih (done ++ [n]) (List.nodup_cons.mp hnd).2
      (by
        intro m hm
        simp only [List.mem_append, List.mem_singleton]
        rintro (hc | hc)
        · exact hdone m (List.mem_cons_of_mem _ hm) hc
        · exact (List.nodup_cons.mp hnd).1 (hc ▸ hm))
      (fun m hm => hpre m (List.mem_cons_of_mem _ hm))
    simp only [setattrAll, hstep, h2]
    simp [List.append_assoc]

/-- Claim C2: `get_system_costing` is idempotent. On a flowsheet whose
existing costing block (if any) does not already carry the
system-costing component names, the first call reuses (or lazily
creates) the block and appends the ten components without warnings, and
calling it a second time yields exactly the same flowsheet: the existing
costing block is reused, each same-named component is implicitly
replaced by one built from the identical definition, so no duplicate
variables or constraints arise and the block equals the one the first
call produced. The second call additionally logs one
implicit-replacement warning per component, recording that the
components are rebuilt rather than left untouched. -/
theorem C2_system_costing_idempotent (fs : FlowsheetBlk)
    (hdisj : ∀ n ∈ sysCostingNames, n ∉ costingComps fs)
    (hnd : (costingComps fs).Nodup) :
    (get_system_costing fs).1.costing =
      some { comps := costingComps fs ++ sysCostingNames } ∧
    (get_system_costing fs).2 = [] ∧
    (get_system_costing (get_system_costing fs).1).1 = (get_system_costing fs).1 ∧
    (costingComps (get_system_costing fs).1).Nodup ∧
    (get_system_costing (get_system_costing fs).1).2 =
      sysCostingNames.map implicitReplaceWarn := by
  have hndsys : sysCostingNames.Nodup := by decide
  have hfresh : ∀ n ∈ sysCostingNames, n ∉ (baseCostingBlk fs).comps := by
    intro n hn
    rw [baseCostingBlk_comps]
    exact hdisj n hn
  have h1 := setattrAll_fresh sysCostingNames (baseCostingBlk fs) hfresh hndsys
  have hfs1 : get_system_costing fs =
      ({ fs with costing := some { comps := costingComps fs ++ sysCostingNames } }, []) := by
    simp only [get_system_costing, h1, baseCostingBlk_comps]
  have h2 := setattrAll_replay sysCostingNames (costingComps fs) []
    hndsys (by intro n _ hc; cases hc) hdisj
  simp only [List.append_nil] at h2
  have hsecond : get_system_costing
      ({ fs with costing := some { comps := costingComps fs ++ sysCostingNames } } :
        FlowsheetBlk) =
      ({ fs with costing := some { comps := costingComps fs ++ sysCostingNames } },
        sysCostingNames.map implicitReplaceWarn) := by
    simp only [get_system_costing]
    rw [show baseCostingBlk
        ({ fs with costing := some { comps := costingComps fs ++ sysCostingNames } } :
          FlowsheetBlk) =
        { comps := costingComps fs ++ sysCostingNames } from rfl, h2]
  refine ⟨?_, ?_, ?_, ?_, ?_⟩
  · rw [hfs1]
  · rw [hfs1]
  · rw [hfs1]
    show (get_system_costing
      { fs with costing := some { comps := costingComps fs ++ sysCostingNames } }).1 =
      { fs with costing := some { comps := costingComps fs ++ sysCostingNames } }
    rw [hsecond]
  · rw [hfs1]
    show ((costingComps fs) ++ sysCostingNames).Nodup
    exact List.nodup_append.mpr ⟨hnd, hndsys, fun a ha hb => hdisj a hb ha⟩
  · rw [hfs1]
    show (get_system_costing
      { fs with costing := some { comps := costingComps fs ++ sysCostingNames } }).2 =
      sysCostingNames.map implicitReplaceWarn
    rw [hsecond]

/-- Witness for C2 at a concrete flowsheet with no costing attribute. -/
theorem C2_witness :
    (get_system_costing { costing := none }).1.costing =
      some { comps := costingComps ({ costing := none } : FlowsheetBlk) ++ sysCostingNames } ∧
    (get_system_costing { costing := none }).2 = [] ∧
    (get_system_costing (get_system_costing { costing := none }).1).1 =
      (get_system_costing { costing := none }).1 ∧
    (costingComps (get_system_costing ({ costing := none } : FlowsheetBlk)).1).Nodup ∧
    (get_system_costing (get_system_costing { costing := none }).1).2 =
      sysCostingNames.map implicitReplaceWarn :=
  C2_system_costing_idempotent { costing := none } (by decide) (by decide)

/-! ## Claim C4 -/

/-- Claim C4: any valuation satisfying the constraints declared by
`get_system_costing` satisfies the four system-level cost equations:
investment = capital total * total-investment factor; MLC operating cost
= investment * MLC factor; total operating cost = MLC operating cost plus
the sum of the unit operating costs; LCOW = (investment *
capital-annualization factor + total operating cost) / annual water
production. -/
theorem C4_system_costing_equations (e : SysCostingEnv)
    (h : system_costing_constraints e) :
    e.investment_cost_total = e.capital_cost_total * e.factor_total_investment ∧
    e.operating_cost_MLC = e.investment_cost_total * e.factor_MLC ∧
    e.operating_cost_total = e.operating_cost_MLC + e.unit_operating_costs.sum ∧
    e.LCOW = (e.investment_cost_total * e.factor_capital_annualization
      + e.operating_cost_total) / e.annual_water_production := by
  obtain ⟨h1, h2, h3, h4, h5⟩ := h
  refine ⟨h2, h3, ?_, h5⟩
  rw [eq_operating_cost_total_con] at h4
  rw [h4, List.sum_append]
  simp [add_comm]

/-- Witness for C4 at a concrete satisfying valuation. -/
theorem C4_witness :
    ({ unit_capital_costs := [100, 50], unit_operating_costs := [10, 5],
       factor_total_investment := 2, factor_MLC := 1 / 10,
       factor_capital_annualization := 1 / 10, annual_water_production := 5,
       capital_cost_total := 150, investment_cost_total := 300,
       operating_cost_MLC := 30, operating_cost_total := 45,
       LCOW := 15 } : SysCostingEnv).investment_cost_total =
      ({ unit_capital_costs := [100, 50], unit_operating_costs := [10, 5],
         factor_total_investment := 2, factor_MLC := 1 / 10,
         factor_capital_annualization := 1 / 10, annual_water_production := 5,
         capital_cost_total := 150, investment_cost_total := 300,
         operating_cost_MLC := 30, operating_cost_total := 45,
         LCOW := 15 } : SysCostingEnv).capital_cost_total * 2 ∧
    (30 : ℚ) = 300 * (1 / 10) ∧
    (45 : ℚ) = 30 + ([10, 5] : List ℚ).sum ∧
    (15 : ℚ) = (300 * (1 / 10) + 45) / 5 := by
  have h := C4_system_costing_equations
    { unit_capital_costs := [100, 50], unit_operating_costs := [10, 5],
      factor_total_investment := 2, factor_MLC := 1 / 10,
      factor_capital_annualization := 1 / 10, annual_water_production := 5,
      capital_cost_total := 150, investment_cost_total := 300,
      operating_cost_MLC := 30, operating_cost_total := 45, LCOW := 15 }
    (by
      refine ⟨?_, ?_, ?_, ?_, ?_⟩ <;>
        simp only [eq_capital_cost_total_con, eq_investment_cost_total_con,
          eq_operating_cost_MLC_con, eq_operating_cost_total_con, eq_LCOW_con] <;>
        norm_num)
  exact h

/-! ## Claim C5 -/

/-- Counterexample to claim C5: with the superclass pass the identity and
a state where the vapor enthalpy-flow variable is scaled but neither the
heat-duty variable nor the energy-balance constraint is, the unit's pass
gives `heat_transfer` the enthalpy-flow scale yet leaves the constraint
that equates them unscaled (the constraint-scaling code is commented out
in the source), contradicting the claim that the same scale is applied to
that constraint. -/
theorem C5_counterexample_constraint_unscaled :
    (EvaporatorData.calculate_scaling_factors id
      { heat_transfer_sf := none, vapor_enth_flow_vap_sf := some 1,
        eq_energy_balance_sf := none }).heat_transfer_sf = some 1 ∧
    (EvaporatorData.calculate_scaling_factors id
      { heat_transfer_sf := none, vapor_enth_flow_vap_sf := some 1,
        eq_energy_balance_sf := none }).eq_energy_balance_sf = none := by
  decide

/-- Claim C5 (amended): the unit model's own scaling pass runs only after
the superclass/default pass; when the heat-duty variable `heat_transfer`
lacks a scaling factor it receives the scale of the vapor enthalpy-flow
variable it balances against; no scale is applied to the energy-balance
constraint (that code is commented out), whose scaling factor is left
exactly as the superclass pass left it. -/
theorem C5_amended_scaling (superPass : ScalingState → ScalingState) (s : ScalingState) :
    EvaporatorData.calculate_scaling_factors superPass s = own_scaling_pass (superPass s) ∧
    (EvaporatorData.calculate_scaling_factors superPass s).heat_transfer_sf =
      (match (superPass s).heat_transfer_sf with
       | none => (superPass s).vapor_enth_flow_vap_sf
       | some x => some x) ∧
    (EvaporatorData.calculate_scaling_factors superPass s).vapor_enth_flow_vap_sf =
      (superPass s).vapor_enth_flow_vap_sf ∧
    (EvaporatorData.calculate_scaling_factors superPass s).eq_energy_balance_sf =
      (superPass s).eq_energy_balance_sf := by
  refine ⟨rfl, ?_, ?_, ?_⟩ <;>
    cases ht : (superPass s).heat_transfer_sf <;>
    simp [EvaporatorData.calculate_scaling_factors, own_scaling_pass, ht]

/-! ## Claim C1 -/

/-- Claim C1: in every run of the initialization routine, the feed state
block is initialized first with hold_state=True and the state_args passed
through, the flag set it returns is the one passed to `release_state` on
the feed block, the release happens after the whole-unit solve, the
(possibly non-optimal) termination status is logged, release is called
only on the feed block and only with exactly those flags, and the routine
completes (returns a trace rather than raising) for every termination
status. -/
theorem C1_hold_release_protocol (feedPort : PortVals) (flags : List String)
    (vaporLiqH2Olb : Option ℚ) (res : TerminationCondition) (state_args : Option PortVals)
    (h : (vapor_state_args (resolved_state_args feedPort state_args)
      vaporLiqH2Olb).isSome = true) :
    ∃ tr, EvaporatorData.init_unit feedPort flags vaporLiqH2Olb res state_args = some tr ∧
      tr.head? = some (InitEvent.initBlock "properties_feed" true state_args) ∧
      tr.get? 5 = some (InitEvent.solveUnit res) ∧
      tr.get? 7 = some (InitEvent.releaseState "properties_feed" flags) ∧
      InitEvent.logMsg ("Initialization Complete: " ++ res.describe) ∈ tr ∧
      (∀ b fl, InitEvent.releaseState b fl ∈ tr →
        b = "properties_feed" ∧ fl = flags) := by
  obtain ⟨vargs, hv⟩ := Option.isSome_iff_exists.mp h
  refine ⟨[InitEvent.initBlock "properties_feed" true state_args,
           InitEvent.logMsg "Initialization Step 1 Complete.",
           InitEvent.initBlock "properties_brine" false
             (some (resolved_state_args feedPort state_args)),
           InitEvent.initBlock "properties_vapor" false (some vargs),
           InitEvent.logMsg "Initialization Step 2 Complete.",
           InitEvent.solveUnit res,
           InitEvent.logMsg ("Initialization Step 3 " ++ res.describe ++ "."),
           InitEvent.releaseState "properties_feed" flags,
           InitEvent.logMsg ("Initialization Complete: " ++ res.describe)],
    ?_, rfl, rfl, rfl, ?_, ?_⟩
  · simp only [EvaporatorData.init_unit, hv]
  · simp
  · intro b fl hmem
    simp only [List.mem_cons, List.not_mem_nil, or_false] at hmem
    rcases hmem with h1 | h1 | h1 | h1 | h1 | h1 | h1 | h1 | h1 <;>
      first
      | (exact InitEvent.noConfusion h1)
      | (injection h1 with hb hfl
         exact ⟨hb, hfl⟩)

/-- Witness for C1 at a concrete feed snapshot, flag set and a
non-optimal (max-iterations) termination status. -/
theorem C1_witness :
    ∃ tr, EvaporatorData.init_unit
        { flow_mass_phase_comp := [(("Liq", "H2O"), some 10)],
          temperature := some 298, pressure := some 101325 }
        ["f1", "f2"] (some 0) TerminationCondition.maxIterations none = some tr ∧
      tr.head? = some (InitEvent.initBlock "properties_feed" true none) ∧
      tr.get? 5 = some (InitEvent.solveUnit TerminationCondition.maxIterations) ∧
      tr.get? 7 = some (InitEvent.releaseState "properties_feed" ["f1", "f2"]) ∧
      InitEvent.logMsg ("Initialization Complete: " ++
        TerminationCondition.maxIterations.describe) ∈ tr ∧
      (∀ b fl, InitEvent.releaseState b fl ∈ tr →
        b = "properties_feed" ∧ fl = ["f1", "f2"]) :=
  C1_hold_release_protocol
    { flow_mass_phase_comp := [(("Liq", "H2O"), some 10)],
      temperature := some 298, pressure := some 101325 }
    ["f1", "f2"] (some 0) TerminationCondition.maxIterations none (by decide)

/-! ## Claim C7 -/

/-- Claim C7: when state_args is omitted, the brine block is initialized
(without holding state) with a copy of the current numeric values of the
feed block's port members, and the vapor block (also without holding
state) with pressure and temperature from those values, its liquid-phase
H2O flow pinned at that variable's lower bound and its vapor-phase H2O
flow set from the feed's liquid-phase H2O value. -/
theorem C7_default_state_args (feedPort : PortVals) (flags : List String)
    (vaporLiqH2Olb : Option ℚ) (res : TerminationCondition) (w : Option ℚ)
    (h : feedPort.flow_mass_phase_comp.lookup ("Liq", "H2O") = some w) :
    EvaporatorData.init_unit feedPort flags vaporLiqH2Olb res none =
      some [InitEvent.initBlock "properties_feed" true none,
            InitEvent.logMsg "Initialization Step 1 Complete.",
            InitEvent.initBlock "properties_brine" false (some feedPort),
            InitEvent.initBlock "properties_vapor" false (some
              { flow_mass_phase_comp :=
                  [(("Liq", "H2O"), vaporLiqH2Olb), (("Vap", "H2O"), w)],
                temperature := feedPort.temperature,
                pressure := feedPort.pressure }),
            InitEvent.logMsg "Initialization Step 2 Complete.",
            InitEvent.solveUnit res,
            InitEvent.logMsg ("Initialization Step 3 " ++ res.describe ++ "."),
            InitEvent.releaseState "properties_feed" flags,
            InitEvent.logMsg ("Initialization Complete: " ++ res.describe)] := by
  simp [EvaporatorData.init_unit, resolved_state_args, vapor_state_args, h]

/-- Witness for C7 at a concrete feed snapshot. -/
theorem C7_witness :
    EvaporatorData.init_unit
      { flow_mass_phase_comp := [(("Liq", "H2O"), some 10)],
        temperature := some 298, pressure := some 101325 }
      ["f1"] (some 0) TerminationCondition.optimal none =
    some [InitEvent.initBlock "properties_feed" true none,
          InitEvent.logMsg "Initialization Step 1 Complete.",
          InitEvent.initBlock "properties_brine" false (some
            { flow_mass_phase_comp := [(("Liq", "H2O"), some 10)],
              temperature := some 298, pressure := some 101325 }),
          InitEvent.initBlock "properties_vapor" false (some
            { flow_mass_phase_comp := [(("Liq", "H2O"), some 0), (("Vap", "H2O"), some 10)],
              temperature := some 298, pressure := some 101325 }),
          InitEvent.logMsg "Initialization Step 2 Complete.",
          InitEvent.solveUnit TerminationCondition.optimal,
          InitEvent.logMsg ("Initialization Step 3 " ++
            TerminationCondition.optimal.describe ++ "."),
          InitEvent.releaseState "properties_feed" ["f1"],
          InitEvent.logMsg ("Initialization Complete: " ++
            TerminationCondition.optimal.describe)] :=
  C7_default_state_args
    { flow_mass_phase_comp := [(("Liq", "H2O"), some 10)],
      temperature := some 298, pressure := some 101325 }
    ["f1"] (some 0) TerminationCondition.optimal (some 10) (by decide)

/-! ## Claims C10 and C6 -/

theorem eq_mass_balance_rule_var (t : ℕ) (j : String) (v : VaporFlowVar) :
    (eq_mass_balance_rule t j v).1 = { value := some v.lb, lb := v.lb, fixed := true } := by
  by_cases hj : j = "H2O" <;> simp [eq_mass_balance_rule, hj]

theorem eq_mass_balance_rule_rel (t : ℕ) (j : String) (v : VaporFlowVar) :
    (eq_mass_balance_rule t j v).2 =
      if j = "H2O" then MassBalRel.h2oBal t else MassBalRel.soluteBal t j := by
  by_cases hj : j = "H2O" <;> simp [eq_mass_balance_rule, hj]

theorem eq_mass_balance_build_var (t : ℕ) (j : String) (rest : List String)
    (v : VaporFlowVar) :
    (eq_mass_balance_build t (j :: rest) v).1 =
      { value := some v.lb, lb := v.lb, fixed := true } := by
  induction rest generalizing j v with
  | nil => simp [eq_mass_balance_build, eq_mass_balance_rule_var]
  | cons j2 rest2 ih =>
    have h2 := ih j2 (eq_mass_balance_rule t j v).1
    simp only [eq_mass_balance_build] at h2 ⊢
    rw [h2, eq_mass_balance_rule_var]

theorem eq_mass_balance_build_mem (t : ℕ) (comps : List String) (v : VaporFlowVar)
    (j : String) (hj : j ∈ comps) :
    (if j = "H2O" then MassBalRel.h2oBal t else MassBalRel.soluteBal t j) ∈
      (eq_mass_balance_build t comps v).2 := by
  induction comps generalizing v with
  | nil => cases hj
  | cons c rest ih =>
    simp only [eq_mass_balance_build]
    rcases List.mem_cons.mp hj with h1 | h1
    · subst h1
      rw [← eq_mass_balance_rule_rel t j v]
      exact List.mem_cons_self _ _
    · exact List.mem_cons_of_mem _ (ih (eq_mass_balance_rule t c v).1 h1)

/-- Claim C10: each evaluation of the mass-balance rule fixes the vapor
block's liquid-phase H2O flow variable at its lower bound as a side
effect, and after building the constraint over a nonempty component list
that variable is fixed (at its lower bound) rather than free. -/
theorem C10_mass_balance_side_effect (t : ℕ) (j0 : String) (comps : List String)
    (v : VaporFlowVar) (h : comps ≠ []) :
    (eq_mass_balance_rule t j0 v).1.fixed = true ∧
    (eq_mass_balance_rule t j0 v).1.value = some v.lb ∧
    (eq_mass_balance_build t comps v).1.fixed = true ∧
    (eq_mass_balance_build t comps v).1.value = some v.lb := by
  cases comps with
  | nil => exact absurd rfl h
  | cons j rest =>
    rw [eq_mass_balance_rule_var, eq_mass_balance_build_var]
    exact ⟨rfl, rfl, rfl, rfl⟩

/-- Witness for C10 at time 0, components [H2O, TDS] and an initially
free vapor flow variable with lower bound 0. -/
theorem C10_witness :
    (eq_mass_balance_rule 0 "H2O" { value := none, lb := 0, fixed := false }).1.fixed = true ∧
    (eq_mass_balance_rule 0 "H2O"
      { value := none, lb := 0, fixed := false }).1.value = some 0 ∧
    (eq_mass_balance_build 0 ["H2O", "TDS"]
      { value := none, lb := 0, fixed := false }).1.fixed = true ∧
    (eq_mass_balance_build 0 ["H2O", "TDS"]
      { value := none, lb := 0, fixed := false }).1.value = some 0 :=
  C10_mass_balance_side_effect 0 "H2O" ["H2O", "TDS"]
    { value := none, lb := 0, fixed := false } (by decide)

/-- Claim C6: any valuation satisfying the relations produced by the
mass-balance constraint conserves every component: the feed (inlet) flow
of j equals the brine flow of j plus the vapor-outlet flow of j, in
particular to within 1e-6 absolute tolerance; for H2O the vapor outlet
carries the vapor-phase flow, for any other component the feed flow
equals the brine flow. -/
theorem C6_component_conservation (f : EvapFlowsVal) (t : ℕ) (comps : List String)
    (v : VaporFlowVar)
    (hsat : ∀ r ∈ (eq_mass_balance_build t comps v).2, MassBalRel.holds f r) :
    ∀ j ∈ comps,
      |f.feed_liq t j - (f.brine_liq t j + vaporOutFlow f t j)| ≤ 1 / 1000000 := by
  intro j hj
  have hr := hsat _ (eq_mass_balance_build_mem t comps v j hj)
  by_cases hjw : j = "H2O"
  · subst hjw
    rw [if_pos rfl] at hr
    simp only [MassBalRel.holds] at hr
    unfold vaporOutFlow
    rw [if_pos rfl, hr, sub_self, abs_zero]
    norm_num
  · rw [if_neg hjw] at hr
    simp only [MassBalRel.holds] at hr
    unfold vaporOutFlow
    rw [if_neg hjw, add_zero, hr, sub_self, abs_zero]
    norm_num

/-- Witness for C6 at a concrete satisfying valuation (feed H2O 10 =
brine 4 + vapor 6; feed TDS 1 = brine 1), evaluated at component H2O. -/
theorem C6_witness :
    |evapFlowsEx.feed_liq 0 "H2O" -
      (evapFlowsEx.brine_liq 0 "H2O" + vaporOutFlow evapFlowsEx 0 "H2O")| ≤ 1 / 1000000 :=
  C6_component_conservation evapFlowsEx 0 ["H2O", "TDS"]
    { value := none, lb := 0, fixed := false }
    (by
      intro r hr
      rw [show (eq_mass_balance_build 0 ["H2O", "TDS"]
          { value := none, lb := 0, fixed := false }).2 =
        [MassBalRel.h2oBal 0, MassBalRel.soluteBal 0 "TDS"] from rfl] at hr
      rcases List.mem_cons.mp hr with h1 | h1
      · subst h1
        show evapFlowsEx.feed_liq 0 "H2O" =
          evapFlowsEx.brine_liq 0 "H2O" + evapFlowsEx.vapor_vap_h2o 0
        norm_num [evapFlowsEx]
      · rcases List.mem_cons.mp h1 with h2 | h2
        · subst h2
          show evapFlowsEx.feed_liq 0 "TDS" = evapFlowsEx.brine_liq 0 "TDS"
          decide
        · cases h2)
    "H2O" (by decide)
